import Mathlib

/-!
Verification of the standard-logger repository (a Python logging facade).

The development shallowly embeds the routing / validation / rendering logic
of src/standard_logger/logger.py and src/standard_logger/logger_internals.py:
pure functions are translated to Lean functions, and the stateful setup
routine is translated to explicit state passing, with an environment record
standing for the outcomes of the external fallible operations (directory
creation, sink registration, and so on).
-/

namespace StandardLogger

/- ===================== Python string primitives ===================== -/

/-- Builds a string of n copies of the character c. -/
def strRep (n : Nat) (c : Char) : String :=
  String.mk (List.replicate n c)

/-- Python str.upper (ASCII fragment, which is all the level names use). -/
def pyUpper (s : String) : String :=
  String.mk (s.data.map Char.toUpper)

/-- Joins strings with a separator, like Python sep.join(parts). -/
def joinWith (sep : String) : List String → String
  | [] => ""
  | [x] => x
  | x :: y :: xs => x ++ sep ++ joinWith sep (y :: xs)

/-- Splits a character list at newline characters, keeping empty segments
(the helper behind splitlines). -/
def splitAtNewlines : List Char → List (List Char)
  | [] => [[]]
  | c :: rest =>
      let r := splitAtNewlines rest
      if c = '\n' then [] :: r
      else
        match r with
        | h :: t => (c :: h) :: t
        | [] => [[c]]

/-- Python str.center: pads s with spaces on both sides to width w.
CPython puts the extra space on the left when (w - len) is odd and w is odd
(left = marg / 2 + (marg AND w AND 1)). Returns s unchanged when len >= w. -/
def pyCenter (s : String) (w : Nat) : String :=
  if s.length ≥ w then s
  else
    let marg := w - s.length
    let left := marg / 2 + (marg &&& w &&& 1)
    strRep left ' ' ++ s ++ strRep (marg - left) ' '

/-- Python str.ljust: pads s with spaces on the right to width w. -/
def pyLjust (s : String) (w : Nat) : String :=
  if s.length ≥ w then s else s ++ strRep (w - s.length) ' '

/-- Python str.splitlines restricted to the newline character: the empty
string yields no lines, and a trailing newline does not produce a final
empty line. -/
def splitlines (s : String) : List String :=
  if s = "" then []
  else
    let parts := (splitAtNewlines s.data).map String.mk
    if s.data.getLast? = some '\n' then parts.dropLast else parts

/- ===================== Level validation (LoggerConfig._validate_level) ===================== -/

/-- Value supplied for a console_level / file_level field: a string, an int,
or a value of any other type. -/
inductive LevelInput where
  | strLevel (s : String)
  | intLevel (n : Int)
  | otherObj
deriving DecidableEq

/-- The _nameToLevel table of the logging module: maps known severity names to
their numeric levels (logging.getLevelName on a known name returns the int). -/
def nameToLevel (s : String) : Option Int :=
  if s = "CRITICAL" then some 50
  else if s = "FATAL" then some 50
  else if s = "ERROR" then some 40
  else if s = "WARN" then some 30
  else if s = "WARNING" then some 30
  else if s = "INFO" then some 20
  else if s = "DEBUG" then some 10
  else if s = "NOTSET" then some 0
  else none

/-- Result of LoggerConfig._validate_level: the field value afterwards and
the number of warnings emitted. -/
structure ValidateResult where
  value : LevelInput
  warnings : Nat
deriving DecidableEq

/-- LoggerConfig._validate_level. A string is valid iff
logging.getLevelName(s.upper()) returns an int, i.e. iff the upper-cased
string is a known severity name. An int is always valid, because
logging.getLevelName(int) never raises: it returns the string
"Level n" for unknown ints, and the code only calls it for its
(nonexistent) exception. Any other type is invalid. Invalid values are
replaced by the default and one warning is emitted. -/
def validateLevel (level : LevelInput) (defaultLevel : Int) : ValidateResult :=
  match level with
  | .strLevel s =>
      match nameToLevel (pyUpper s) with
      | some _ => ⟨.strLevel s, 0⟩
      | none => ⟨.intLevel defaultLevel, 1⟩
  | .intLevel n => ⟨.intLevel n, 0⟩
  | .otherObj => ⟨.intLevel defaultLevel, 1⟩

/- ===================== ASCII panel fallback (_render_ascii_panel) ===================== -/

/-- The renderable argument of _render_ascii_panel, split by the match
statement of the source: a plain string, a rich Text (carrying its plain
text), a rich Table (headers and row count), an int/float/bool (carrying
its str()), or any other object (carrying its type name). -/
inductive Renderable where
  | text (s : String)
  | richText (plain : String)
  | table (headers : List String) (rows : Nat)
  | number (s : String)
  | otherObj (typeName : String)
deriving DecidableEq

/-- The plain_text computed by the match statement of _render_ascii_panel. -/
def plainTextOf : Renderable → String
  | .text s => s
  | .richText p => p
  | .table hs n =>
      "[Table cols: " ++ joinWith ", " hs ++ ", " ++ toString n ++ " row(s)]"
  | .number s => s
  | .otherObj t => "[" ++ t ++ " object]"

/-- DEFAULT_ASCII_PANEL_WIDTH from logger_internals.py. -/
def DEFAULT_ASCII_PANEL_WIDTH : Nat := 78

/-- The list of lines printed by _render_ascii_panel. Mirrors the source:
compact mode sets inner_width = max(longest content line, title length, 18)
and target_width = inner_width + 4; fixed mode sets target_width = 78 and
inner_width = 74. The borders use target_width - 4 dashes, the title line
is centered (ellipsis-truncated when it overflows), and each content line
is rendered as a bar, a space, the line left-justified to inner_width - 1,
and a bar. -/
def renderAsciiPanel (renderable : Renderable) (title : Option String)
    (compact : Bool) : List String :=
  let plainText := plainTextOf renderable
  let titleStr : Option String :=
    match title with
    | some t => if t = "" then none else some t
    | none => none
  let contentLines := splitlines plainText
  let maxContentWidth := (contentLines.map String.length).foldr max 0
  let titleWidth := (titleStr.getD "").length
  let innerWidth : Nat :=
    if compact then max (max maxContentWidth titleWidth) 18
    else DEFAULT_ASCII_PANEL_WIDTH - 4
  let targetWidth : Nat :=
    if compact then innerWidth + 4 else DEFAULT_ASCII_PANEL_WIDTH
  let top := "╭" ++ strRep (targetWidth - 4) '─' ++ "╮"
  let bottom := "╰" ++ strRep (targetWidth - 4) '─' ++ "╯"
  let titleLines : List String :=
    match titleStr with
    | some t =>
        let padded := pyCenter (" " ++ t ++ " ") innerWidth
        let padded :=
          if padded.length > innerWidth then
            pyLjust (" " ++ String.mk (t.data.take (innerWidth - 3)) ++ "… ") innerWidth
          else padded
        ["│" ++ padded ++ "│", "├" ++ strRep innerWidth '─' ++ "┤"]
    | none => []
  let contentRows := contentLines.map (fun line =>
    let line :=
      if line.length > innerWidth then String.mk (line.data.take (innerWidth - 1)) ++ "…"
      else line
    "│ " ++ pyLjust line (innerWidth - 1) ++ "│")
  [top] ++ titleLines ++ contentRows ++ [bottom]

/- ===================== Paths and the default log path (_get_default_log_file_path) ===================== -/

/-- A filesystem path, split as pathlib does into the parent directory and
the final component (the file name). -/
structure PyPath where
  dir : String
  name : String
deriving DecidableEq

/-- Index of the last dot in a character list, the analogue of
name.rfind(chr(46)) used by pathlib to locate the extension. -/
def lastDotIdx : List Char → Nat → Option Nat
  | [], _ => none
  | c :: rest, i =>
      match lastDotIdx rest (i + 1) with
      | some j => some j
      | none => if c = '.' then some i else none

/-- Python pathlib suffix of a file name: the part from the last dot on,
when that dot is neither the first nor the last character; otherwise the
empty string. -/
def pySuffix (name : String) : String :=
  match lastDotIdx name.data 0 with
  | some i =>
      if 0 < i && i + 1 < name.length then String.mk (name.data.drop i) else ""
  | none => ""

/-- Python Path.with_suffix: drops the existing suffix, when there is one,
and appends the new suffix to the stem. -/
def withSuffix (p : PyPath) (suffix : String) : PyPath :=
  let old := pySuffix p.name
  let base :=
    if old = "" then p.name
    else String.mk (p.name.data.take (p.name.length - old.length))
  ⟨p.dir, base ++ suffix⟩

/-- A wall-clock timestamp with second resolution, the input of
time.strftime in _get_default_log_file_path. -/
structure DateTime where
  year : Nat
  month : Nat
  day : Nat
  hour : Nat
  minute : Nat
  second : Nat
deriving DecidableEq

/-- The ASCII digit character for d mod 10. -/
def digitChar (d : Nat) : Char :=
  Char.ofNat (48 + d % 10)

/-- Two-digit zero-padded decimal field of strftime (the components a valid
clock produces are below 100). -/
def pad2 (n : Nat) : String :=
  String.mk [digitChar (n / 10), digitChar n]

/-- Four-digit zero-padded decimal field of strftime (for the year). -/
def pad4 (n : Nat) : String :=
  String.mk [digitChar (n / 1000), digitChar (n / 100), digitChar (n / 10), digitChar n]

/-- The timestamp string produced by time.strftime with format
percent-Y percent-m percent-d underscore percent-H percent-M percent-S. -/
def strftimeTimestamp (t : DateTime) : String :=
  pad4 t.year ++ pad2 t.month ++ pad2 t.day ++ "_" ++ pad2 t.hour ++ pad2 t.minute ++ pad2 t.second

/-- DEFAULT_LOG_FILENAME_PREFIX from logger_internals.py. -/
def kardomeLogStem : String := "kardome_log_"

/- ===================== Records and the facade exception path ===================== -/

/-- An exception triple (type, value, traceback). The type and value are
None or the name and text of the exception; hasTraceback records whether
the third slot is a traceback object. The null triple (None, None, None)
is the one with both slots none and no traceback. -/
structure ExcTriple where
  excType : Option String
  excValue : Option String
  hasTraceback : Bool
deriving DecidableEq

/-- The (None, None, None) triple. -/
def nullExcInfo : ExcTriple := ⟨none, none, false⟩

/-- A value stored in the extra mapping of a record. -/
inductive ExtraVal where
  | boolVal (b : Bool)
  | strVal (s : String)
deriving DecidableEq

/-- Python truthiness of an extra value (the suppression filter applies
not to the looked-up value). -/
def ExtraVal.truthy : ExtraVal → Bool
  | .boolVal b => b
  | .strVal s => !(s == "")

/-- Dictionary lookup in an association-list extra mapping. -/
def dictGet (d : List (String × ExtraVal)) (k : String) : Option ExtraVal :=
  match d.find? (fun kv => kv.1 == k) with
  | some kv => some kv.2
  | none => none

/-- Dictionary assignment d[k] = v on a uniquely-keyed mapping: replaces
the value under the key in place when present, otherwise appends the new
pair (Python dicts keep the original insertion position on overwrite). -/
def dictSet : List (String × ExtraVal) → String → ExtraVal → List (String × ExtraVal)
  | [], k, v => [(k, v)]
  | kv :: rest, k, v =>
      if kv.1 == k then (k, v) :: rest else kv :: dictSet rest k v

/-- The exc_info argument accepted by StandardLogger.exception, split by
the validation in the source: True, False, None, a valid 3-tuple (whose
first element is None or an exception type), a tuple failing that
validation, or a value of any other type. -/
inductive ExcInfoArg where
  | boolArg (b : Bool)
  | noneArg
  | tripleArg (t : ExcTriple)
  | invalidTupleArg
  | invalidTypeArg
deriving DecidableEq

/-- The three process-wide flags stamped on the StandardLogger class by
setup_logging and read by exception(). -/
structure Flags where
  useRichConsole : Bool
  useSimpleTracebacks : Bool
  showLocalsCls : Bool
deriving DecidableEq

/-- A record emitted into the logging hierarchy: severity number, message,
the exc_info triple attached to it, and its extra mapping. -/
structure EmittedRecord where
  levelno : Int
  message : String
  excInfo : ExcTriple
  extra : List (String × ExtraVal)
deriving DecidableEq

/-- Everything one call to StandardLogger.exception does: the warning
messages logged for invalid exc_info input, the single ERROR record passed
to _log, whether the manual Rich traceback print runs afterwards, and the
show_locals value it would use. -/
structure ExceptionResult where
  warnings : List String
  record : EmittedRecord
  manualRichPrint : Bool
  manualShowLocals : Bool
deriving DecidableEq

/-- StandardLogger.exception. ambient is sys.exc_info() (the null triple
when no exception is being handled). Mirrors the source: it computes
should_print_manual_rich_tb from the class flags, resolves the exception
triple from the exc_info argument, injects
extra[suppress-console-key] = has_exception AND should_print, emits one
ERROR record through _log, and performs the manual Rich print iff
has_exception AND should_print. -/
def exceptionCall (flags : Flags) (ambient : ExcTriple) (excInfo : ExcInfoArg)
    (msg : String) (extra : List (String × ExtraVal)) (showLocals : Option Bool) :
    ExceptionResult :=
  let shouldPrintManualRichTb := flags.useRichConsole && !flags.useSimpleTracebacks
  let resolved : ExcTriple × List String :=
    match excInfo with
    | .boolArg true => (if ambient.excType.isSome then ambient else nullExcInfo, [])
    | .boolArg false => (nullExcInfo, [])
    | .noneArg => (nullExcInfo, [])
    | .tripleArg t => (t, [])
    | .invalidTupleArg => (nullExcInfo, ["Invalid tuple for exc_info. Ignoring."])
    | .invalidTypeArg => (nullExcInfo, ["Invalid type for exc_info. Ignoring."])
  let actualExcInfo := resolved.1
  let hasException := actualExcInfo.excType.isSome
  let logExtra := dictSet extra "suppress_console"
    (.boolVal (hasException && shouldPrintManualRichTb))
  ⟨resolved.2,
   ⟨40, msg, actualExcInfo, logExtra⟩,
   hasException && shouldPrintManualRichTb,
   showLocals.getD flags.showLocalsCls⟩

/-- SuppressConsoleFilter.filter: lets a record through iff
getattr(record, suppress-console-key, False) is not truthy. -/
def suppressConsoleFilterAccepts (r : EmittedRecord) : Bool :=
  !(((dictGet r.extra "suppress_console").getD (.boolVal false)).truthy)

/-- Whether the installed console handler renders a traceback for a record
dispatched to it: the record must pass the suppression filter (installed
exactly when Rich console is on and simple tracebacks are off, per
_setup_rich_console_handler) and must carry an exception. -/
def consoleDispatchRendersTb (flags : Flags) (r : EmittedRecord) : Bool :=
  let filterInstalled := flags.useRichConsole && !flags.useSimpleTracebacks
  let passes := if filterInstalled then suppressConsoleFilterAccepts r else true
  passes && r.excInfo.excType.isSome

/-- Number of traceback renderings that reach the console for one
exception() call: the dispatch-path rendering plus the manual Rich print. -/
def consoleTracebackRenderCount (flags : Flags) (res : ExceptionResult) : Nat :=
  (if consoleDispatchRendersTb flags res.record then 1 else 0) +
  (if res.manualRichPrint then 1 else 0)

/- ===================== Loguru bridge (LoguruInterceptHandler.emit) ===================== -/

/-- A standard-library LogRecord as seen by a handler: level name and
number, the formatted message (getMessage()), the exc_info, and the
extra mapping passed by the caller (stored as attributes on the record). -/
structure StdRecord where
  levelName : String
  levelno : Int
  message : String
  excInfo : Option ExcTriple
  extra : List (String × ExtraVal)
deriving DecidableEq

/-- The level argument passed to Loguru: the Loguru level name when the
level name of the record is known to Loguru, otherwise the level number. -/
inductive LoguruLevelArg where
  | byName (s : String)
  | byNo (n : Int)
deriving DecidableEq

/-- The level names registered in Loguru by default;
loguru_sink_handler.level(name) raises ValueError for any other name. -/
def loguruKnownLevel (s : String) : Bool :=
  ["TRACE", "DEBUG", "INFO", "SUCCESS", "WARNING", "ERROR", "CRITICAL"].contains s

/-- A Loguru record as handed to its sinks: level, message, exception and
the extra mapping held by the Loguru logger. -/
structure LoguruRecord where
  level : LoguruLevelArg
  message : String
  exception : Option ExcTriple
  extra : List (String × ExtraVal)
deriving DecidableEq

/-- The extra mapping bound on the module-level Loguru logger object.
Loguru starts with an empty mapping and the repository never calls bind,
so it stays empty. -/
def loguruBoundExtra : List (String × ExtraVal) := []

/-- LoguruInterceptHandler.emit: forwards the record to Loguru via
opt(depth, exception=record.exc_info).log(level, record.getMessage()).
The resulting Loguru record carries the message, the exception info, and
the bound extra of the Loguru logger itself; the extra mapping of the standard record
is not forwarded. -/
def interceptEmit (boundExtra : List (String × ExtraVal)) (r : StdRecord) :
    LoguruRecord :=
  let lvl :=
    if loguruKnownLevel r.levelName then LoguruLevelArg.byName r.levelName
    else LoguruLevelArg.byNo r.levelno
  ⟨lvl, r.message, r.excInfo, boundExtra⟩

/-- The fields of the JSON object Loguru writes per line when the file sink
has serialize=True: message text, level, the extra mapping of the record, and
the exception detail when present. -/
structure JsonLine where
  text : String
  level : LoguruLevelArg
  extra : List (String × ExtraVal)
  exception : Option ExcTriple
deriving DecidableEq

/-- Serialization of a Loguru record into the fields of its JSON line. -/
def serializeLine (r : LoguruRecord) : JsonLine :=
  ⟨r.message, r.level, r.extra, r.exception⟩

/- ===================== setup_logging ===================== -/

/-- A Python exception as far as setup_logging distinguishes them: either
a LoggerSetupError or any other exception, with its message. -/
inductive PyExc where
  | setupError (msg : String)
  | otherError (msg : String)
deriving DecidableEq

/-- Whether an exception is a LoggerSetupError. -/
def PyExc.isSetupError : PyExc → Bool
  | .setupError _ => true
  | .otherError _ => false

/-- The log_file_path configuration field: False (disabled), None
(auto-generate), an explicit str/Path, or a value of an invalid type. -/
inductive LogFilePathOpt where
  | disabled
  | auto
  | explicitPath (p : PyPath)
  | invalidType (typeName : String)
deriving DecidableEq

/-- LoggerConfig after validation. The level fields are ints here (the
validated form); the other fields copy the dataclass. -/
structure Config where
  appName : String
  appAuthor : Option String
  consoleLevel : Int
  useRichConsole : Bool
  useSimpleTracebacks : Bool
  consoleTimeFormat : String
  showLocalsOnException : Bool
  logFilePath : LogFilePathOpt
  fileLevel : Int
  logFileFormat : Option String
  logFileRotation : String
  logFileRetention : String
  logFileSerialize : Bool
deriving DecidableEq

/-- Decidable equality for Except, used by the environment record. -/
instance instDecEqExcept {α β : Type} [DecidableEq α] [DecidableEq β] :
    DecidableEq (Except α β) := fun a b =>
  match a, b with
  | .ok x, .ok y =>
      if h : x = y then .isTrue (congrArg Except.ok h)
      else .isFalse (fun hc => h (Except.ok.inj hc))
  | .error x, .error y =>
      if h : x = y then .isTrue (congrArg Except.error h)
      else .isFalse (fun hc => h (Except.error.inj hc))
  | .ok _, .error _ => .isFalse (fun hc => Except.noConfusion hc)
  | .error _, .ok _ => .isFalse (fun hc => Except.noConfusion hc)

/-- Outcomes of the external fallible operations setup_logging performs,
fixed in advance: directory resolution and writability, the wall clock,
and whether each wired step raises. A none / ok / true entry means the
operation succeeds. -/
structure Env where
  platformLogDir : Except PyExc String
  cwdLogDir : Except PyExc String
  now : DateTime
  autoMkdirOk : Bool
  userMkdirOk : Bool
  userDirWritable : Bool
  hookRaises : Option PyExc
  configureRootRaises : Option PyExc
  rootLoggerIsNone : Bool
  consoleSinkAddOk : Bool
  fileSinkRaises : Option PyExc
  summaryRaises : Option PyExc
deriving DecidableEq

/-- A handler registered on the root logger: the LoguruInterceptHandler
bridge, or the RichHandler with its level, time format, internal Rich
tracebacks flag, suppression filter, and tracebacks_show_locals. -/
inductive Handler where
  | intercept
  | rich (level : Int) (timeFormat : String) (richTracebacks : Bool)
      (hasSuppressFilter : Bool) (tracebacksShowLocals : Bool)
deriving DecidableEq

/-- A Loguru sink: the stderr console sink or a file sink with its
configuration. -/
inductive Sink where
  | stderrSink (level : Int) (format : String)
  | fileSink (path : PyPath) (level : Int) (format : Option String)
      (serialize : Bool) (rotation : String) (retention : String)
deriving DecidableEq

/-- The process-wide logging state that setup_logging mutates: the
handlers and level of the root logger, the registered Loguru sinks, whether the
global logger class is StandardLogger, and the three class flags. -/
structure LogState where
  rootHandlers : List Handler
  rootLevel : Int
  loguruSinks : List Sink
  loggerClassIsStandard : Bool
  clsShowLocals : Bool
  clsUseRich : Bool
  clsSimpleTb : Bool
deriving DecidableEq

/-- The DEFAULT_FILE_TEXT_LOG_FORMAT constant of logger_internals.py
(DEFAULT_TEXT_LOG_FORMAT plus a newline and the exception field). -/
def DEFAULT_FILE_TEXT_LOG_FORMAT : String :=
  "\x7btime:YYYY-MM-DD HH:mm:ss.SSS\x7d | \x7blevel:<8\x7d | \x7bname\x7d:\x7bfunction\x7d:\x7bline\x7d - \x7bmessage\x7d\n\x7bexception\x7d"

/-- The Loguru console format string built by _configure_loguru_console_sink
around the configured time format. -/
def loguruConsoleFormat (timeFormat : String) : String :=
  "<green>\x7btime:" ++ timeFormat ++ "\x7d</green> | <level>\x7blevel.name: <8\x7d</level> | <cyan>\x7bname\x7d:\x7bline:<4\x7d</cyan> - <level>\x7bmessage\x7d</level>"

/-- _get_default_log_file_path: tries the platformdirs user log directory,
falls back to the cwd logs directory, raises LoggerSetupError when both
fail, and returns the directory joined with the fixed
prefix-plus-timestamp stem (no extension). -/
def getDefaultLogFilePath (env : Env) : Except PyExc PyPath :=
  match env.platformLogDir with
  | .ok d => .ok ⟨d, kardomeLogStem ++ strftimeTimestamp env.now⟩
  | .error _ =>
      match env.cwdLogDir with
      | .ok d => .ok ⟨d, kardomeLogStem ++ strftimeTimestamp env.now⟩
      | .error _ =>
          .error (.setupError "Could not establish any writable default log directory.")

/-- The file-path determination section of setup_logging: yields the
resolved log path (or none) and the failure reason (or none). Mirrors the
source branches on log_file_path; a failure in any branch leaves the
reason set, and the final guard of the source clears the path whenever a
reason was recorded, so a branch that fails yields none. -/
def resolveLogPath (cfg : Config) (env : Env) : Option PyPath × Option String :=
  match cfg.logFilePath with
  | .disabled => (none, some "Explicitly disabled")
  | .auto =>
      match getDefaultLogFilePath env with
      | .error e =>
          (none, some (match e with
            | .setupError m => m
            | .otherError _ => "Unexpected error generating default log path"))
      | .ok base =>
          let p := withSuffix base (if cfg.logFileSerialize then ".jsonl" else ".log")
          if env.autoMkdirOk then (some p, none)
          else (none, some "Unexpected error generating default log path")
  | .explicitPath p =>
      if env.userMkdirOk then
        if env.userDirWritable then (some p, none)
        else (none, some ("Permission denied for log directory: " ++ p.dir))
      else (none, some ("Error accessing specified log path " ++ p.dir))
  | .invalidType t => (none, some ("Invalid log_file_path type: " ++ t ++ "."))

/-- The RichHandler built by _setup_rich_console_handler (plus the
tracebacks_show_locals assignment that setup_logging performs on it):
internal Rich tracebacks and the suppression filter iff simple tracebacks
are off, show-locals iff configured and simple tracebacks are off. -/
def richConsoleHandler (cfg : Config) : Handler :=
  .rich cfg.consoleLevel cfg.consoleTimeFormat (!cfg.useSimpleTracebacks)
    (!cfg.useSimpleTracebacks)
    (cfg.showLocalsOnException && !cfg.useSimpleTracebacks)

/-- The Loguru file sink registered by _setup_loguru_file_sink: the format
keyword is only passed when not serializing (defaulting to the module
text format). -/
def loguruFileSink (cfg : Config) (p : PyPath) : Sink :=
  .fileSink p cfg.fileLevel
    (if cfg.logFileSerialize then none
     else some (cfg.logFileFormat.getD DEFAULT_FILE_TEXT_LOG_FORMAT))
    cfg.logFileSerialize cfg.logFileRotation cfg.logFileRetention

/-- The body of setup_logging (its try block). Threads the process-wide
state and stops with the raised exception where the source does. Order of
effects follows the source: path determination, minimum-level computation,
_configure_root_logger (set class, set level, clear handlers), class
flags, loguru remove(), the intercept bridge handler, the console handler
or Loguru console sink (the latter catches its own failures), the file
sink (failures degrade to no file logging), and the summary record.
Caught-and-degraded failures (traceback hook, path resolution, console
sink, file sink) never escape; the uncaught spots are modeled by the
configureRoot / rootLoggerIsNone / summary entries of the environment. -/
def setupBody (cfg : Config) (env : Env) (s : LogState) :
    Except PyExc (Bool × Option PyPath) × LogState :=
  let pathOpt := (resolveLogPath cfg env).1
  let minLevel :=
    if pathOpt.isSome then min cfg.consoleLevel cfg.fileLevel else cfg.consoleLevel
  match env.configureRootRaises with
  | some e => (.error e, s)
  | none =>
    let s1 : LogState :=
      ⟨[], minLevel, [], true, cfg.showLocalsOnException, cfg.useRichConsole,
       cfg.useSimpleTracebacks⟩
    if env.rootLoggerIsNone then
      (.error (.setupError "Root logger configuration failed unexpectedly."), s1)
    else
      let s2 : LogState :=
        ⟨[Handler.intercept], s1.rootLevel, s1.loguruSinks, s1.loggerClassIsStandard,
         s1.clsShowLocals, s1.clsUseRich, s1.clsSimpleTb⟩
      let s3 : LogState :=
        if cfg.useRichConsole then
          ⟨s2.rootHandlers ++ [richConsoleHandler cfg], s2.rootLevel, s2.loguruSinks,
           s2.loggerClassIsStandard, s2.clsShowLocals, s2.clsUseRich, s2.clsSimpleTb⟩
        else if env.consoleSinkAddOk then
          ⟨s2.rootHandlers, s2.rootLevel,
           s2.loguruSinks ++ [Sink.stderrSink cfg.consoleLevel (loguruConsoleFormat cfg.consoleTimeFormat)],
           s2.loggerClassIsStandard, s2.clsShowLocals, s2.clsUseRich, s2.clsSimpleTb⟩
        else s2
      match pathOpt with
      | some p =>
          match env.fileSinkRaises with
          | none =>
              let s4 : LogState :=
                ⟨s3.rootHandlers, s3.rootLevel, s3.loguruSinks ++ [loguruFileSink cfg p],
                 s3.loggerClassIsStandard, s3.clsShowLocals, s3.clsUseRich, s3.clsSimpleTb⟩
              match env.summaryRaises with
              | some e => (.error e, s4)
              | none => (.ok (true, some p), s4)
          | some _ =>
              match env.summaryRaises with
              | some e => (.error e, s3)
              | none => (.ok (false, none), s3)
      | none =>
          match env.summaryRaises with
          | some e => (.error e, s3)
          | none => (.ok (false, none), s3)

/-- setup_logging: runs the body; on success returns its pair, on failure
applies the two except clauses: a LoggerSetupError is re-raised unchanged
(_raise_critical with re_raise=True), any other exception is wrapped in a
new LoggerSetupError. -/
def setupLogging (cfg : Config) (env : Env) (s : LogState) :
    Except PyExc (Bool × Option PyPath) × LogState :=
  match setupBody cfg env s with
  | (.ok r, s2) => (.ok r, s2)
  | (.error e, s2) =>
      if e.isSetupError then (.error e, s2)
      else (.error (.setupError "UNEXPECTED CRITICAL LOGGER SETUP ERROR"), s2)

/-- Number of console handlers active in a state: RichHandlers on the root
logger plus Loguru stderr sinks. -/
def consoleHandlerCount (s : LogState) : Nat :=
  (s.rootHandlers.filter (fun h => match h with
    | .rich _ _ _ _ _ => true
    | _ => false)).length +
  (s.loguruSinks.filter (fun k => match k with
    | .stderrSink _ _ => true
    | _ => false)).length

/-- Number of Loguru file sinks active in a state. -/
def fileSinkCount (s : LogState) : Nat :=
  (s.loguruSinks.filter (fun k => match k with
    | .fileSink _ _ _ _ _ _ => true
    | _ => false)).length

/-- The pair setup_logging returns on a run where no uncaught exception
occurs: file logging is enabled with the resolved path exactly when a path
was resolved and the Loguru file sink was registered without error. -/
def okResult (cfg : Config) (env : Env) : Bool × Option PyPath :=
  match (resolveLogPath cfg env).1, env.fileSinkRaises with
  | some p, none => (true, some p)
  | some _, some _ => (false, none)
  | none, _ => (false, none)

/-- The process-wide logging state setup_logging leaves behind on a run
where no uncaught exception occurs. -/
def okState (cfg : Config) (env : Env) : LogState :=
  let pathOpt := (resolveLogPath cfg env).1
  let minLevel :=
    if pathOpt.isSome then min cfg.consoleLevel cfg.fileLevel else cfg.consoleLevel
  let handlers :=
    [Handler.intercept] ++ (if cfg.useRichConsole then [richConsoleHandler cfg] else [])
  let sinks :=
    (if cfg.useRichConsole then []
     else if env.consoleSinkAddOk then
       [Sink.stderrSink cfg.consoleLevel (loguruConsoleFormat cfg.consoleTimeFormat)]
     else []) ++
    (match pathOpt, env.fileSinkRaises with
     | some p, none => [loguruFileSink cfg p]
     | _, _ => [])
  ⟨handlers, minLevel, sinks, true, cfg.showLocalsOnException, cfg.useRichConsole,
   cfg.useSimpleTracebacks⟩

/- ===================== Helper lemmas ===================== -/

/-- Looking up a key right after assigning it yields the assigned value. -/
theorem dictGet_dictSet (d : List (String × ExtraVal)) (k : String) (v : ExtraVal) :
    dictGet (dictSet d k v) k = some v := by
  induction d with
  | nil => simp [dictGet, dictSet]
  | cons kv rest ih =>
      by_cases h : kv.1 == k
      · simp [dictGet, dictSet, h]
      · simp only [dictSet, h, if_neg]
        simp only [dictGet, List.find?] at ih ⊢
        simp [h, ih]

/-- lastDotIdx finds nothing in a dot-free character list. -/
theorem lastDotIdx_of_no_dot (cs : List Char) (h : '.' ∉ cs) (i : Nat) :
    lastDotIdx cs i = none := by
  induction cs generalizing i with
  | nil => rfl
  | cons c rest ih =>
      have hc : ¬(c = '.') := fun he => h (he ▸ List.mem_cons_self c rest)
      have hr : '.' ∉ rest := fun hm => h (List.mem_cons_of_mem c hm)
      simp [lastDotIdx, ih hr, hc]

/-- A dot-free file name has an empty pathlib suffix. -/
theorem pySuffix_of_no_dot (s : String) (h : '.' ∉ s.data) : pySuffix s = "" := by
  unfold pySuffix
  rw [lastDotIdx_of_no_dot s.data h 0]

/-- with_suffix on a dot-free file name appends the extension. -/
theorem withSuffix_of_no_dot (p : PyPath) (h : '.' ∉ p.name.data) (ext : String) :
    withSuffix p ext = ⟨p.dir, p.name ++ ext⟩ := by
  unfold withSuffix
  rw [pySuffix_of_no_dot p.name h]
  simp

/-- Decimal digit characters are never the dot character. -/
theorem digitChar_ne_dot (d : Nat) : digitChar d ≠ '.' := by
  unfold digitChar
  intro h
  have h10 : d % 10 < 10 := Nat.mod_lt _ (by norm_num)
  set k := d % 10 with hk
  interval_cases k <;> exact absurd h (by decide)

/-- The strftime timestamp contains no dot character. -/
theorem strftime_no_dot (t : DateTime) : '.' ∉ (strftimeTimestamp t).data := by
  intro h
  have hdata : (strftimeTimestamp t).data =
      [digitChar (t.year / 1000), digitChar (t.year / 100), digitChar (t.year / 10),
       digitChar t.year, digitChar (t.month / 10), digitChar t.month,
       digitChar (t.day / 10), digitChar t.day, '_',
       digitChar (t.hour / 10), digitChar t.hour,
       digitChar (t.minute / 10), digitChar t.minute,
       digitChar (t.second / 10), digitChar t.second] := rfl
  rw [hdata] at h
  simp only [List.mem_cons, List.not_mem_nil, or_false] at h
  rcases h with h | h | h | h | h | h | h | h | h | h | h | h | h | h | h <;>
    first
      | exact absurd h.symm (digitChar_ne_dot _)
      | exact absurd h (by decide)

/-- The default log file stem (fixed prefix plus timestamp) contains no
dot character. -/
theorem logStem_no_dot (t : DateTime) :
    '.' ∉ (kardomeLogStem ++ strftimeTimestamp t).data := by
  intro h
  rw [String.data_append] at h
  rcases List.mem_append.mp h with h | h
  · revert h
    decide
  · exact strftime_no_dot t h

/-- When none of the fatally-wired steps raises, the body of setup_logging
returns okResult and leaves okState, whatever the incoming state was. -/
theorem setupBody_clean (cfg : Config) (env : Env) (s : LogState)
    (h1 : env.configureRootRaises = none) (h2 : env.rootLoggerIsNone = false)
    (h3 : env.summaryRaises = none) :
    setupBody cfg env s = (.ok (okResult cfg env), okState cfg env) := by
  unfold setupBody okResult okState
  rw [h1, h2, h3]
  cases hp : (resolveLogPath cfg env).1 <;>
    cases hf : env.fileSinkRaises <;>
      cases hr : cfg.useRichConsole <;>
        cases hk : env.consoleSinkAddOk <;>
          simp [hp, hf, hr, hk, h3]

/-- The body of setup_logging only returns normally when none of the
fatally-wired steps raises. -/
theorem setupBody_ok_inv (cfg : Config) (env : Env) (s : LogState)
    (r : Bool × Option PyPath) (s2 : LogState)
    (h : setupBody cfg env s = (.ok r, s2)) :
    env.configureRootRaises = none ∧ env.rootLoggerIsNone = false ∧
      env.summaryRaises = none := by
  unfold setupBody at h
  cases hc : env.configureRootRaises <;> rw [hc] at h
  · cases hb : env.rootLoggerIsNone <;> rw [hb] at h
    · cases hs : env.summaryRaises <;>
        cases hp : (resolveLogPath cfg env).1 <;>
          cases hf : env.fileSinkRaises <;>
            simp_all
    · simp_all
  · simp_all

/-- setup_logging returns normally exactly when its body does, with the
same value and state. -/
theorem setupLogging_ok_iff (cfg : Config) (env : Env) (s : LogState)
    (r : Bool × Option PyPath) (s2 : LogState) :
    setupLogging cfg env s = (.ok r, s2) ↔ setupBody cfg env s = (.ok r, s2) := by
  unfold setupLogging
  cases hb : setupBody cfg env s with
  | mk res st =>
      cases res with
      | ok v => simp
      | error e =>
          by_cases he : e.isSetupError <;> simp [he]

/-- A normal return of setup_logging determines the returned pair and the
final state (okResult and okState), independently of the incoming state. -/
theorem setupLogging_fst_ok (cfg : Config) (env : Env) (s : LogState)
    (r : Bool × Option PyPath) (h : (setupLogging cfg env s).1 = .ok r) :
    r = okResult cfg env ∧ (setupLogging cfg env s).2 = okState cfg env ∧
      env.configureRootRaises = none ∧ env.rootLoggerIsNone = false ∧
      env.summaryRaises = none := by
  have hx : setupLogging cfg env s = (.ok r, (setupLogging cfg env s).2) := by
    rw [← h]
  have hb : setupBody cfg env s = (.ok r, (setupLogging cfg env s).2) :=
    (setupLogging_ok_iff cfg env s r _).mp hx
  have hclean := setupBody_ok_inv cfg env s r _ hb
  have hcl := setupBody_clean cfg env s hclean.1 hclean.2.1 hclean.2.2
  rw [hcl] at hb
  have h1 : Except.ok (ε := PyExc) (okResult cfg env) = .ok r := congrArg Prod.fst hb
  have h2 : okState cfg env = (setupLogging cfg env s).2 := congrArg Prod.snd hb
  exact ⟨(Except.ok.inj h1).symm, h2.symm, hclean.1, hclean.2.1, hclean.2.2⟩

/- ===================== Claim theorems ===================== -/

/-- C2: the claim states that with log_file_serialize=True every record
persisted to the file includes the extra mapping of the caller in its JSON
line. The code refutes it: LoguruInterceptHandler.emit forwards only the
formatted message and the exception info to Loguru, never the extra
mapping of the record, so the extra field of the serialized line is the
(empty) mapping bound on the Loguru logger whatever the caller passed — here evaluated at a
record carrying extra user_id=42, and in general for every record. -/
theorem intercept_emit_drops_caller_extra :
    (serializeLine (interceptEmit loguruBoundExtra
        ⟨"INFO", 20, "user logged in", none, [("user_id", .strVal "42")]⟩)).extra = [] ∧
    (∀ r : StdRecord, (serializeLine (interceptEmit loguruBoundExtra r)).extra = []) :=
  ⟨rfl, fun _ => rfl⟩

/-- C3: the claim states that every console_level / file_level input that
is not a known severity name or an integer mapping to a known severity is
replaced by the default with one warning. The code refutes it for
integers: logging.getLevelName(int) never raises, so _validate_level
accepts every int unchanged with no warning — 999 and -1 map to no known
severity yet pass through. Known names (case-insensitive) pass unchanged,
and unknown strings and wrong-typed values are replaced with one warning,
as claimed. -/
theorem validate_level_accepts_unknown_int :
    validateLevel (.intLevel 999) 20 = ⟨.intLevel 999, 0⟩ ∧
    validateLevel (.intLevel (-1)) 10 = ⟨.intLevel (-1), 0⟩ ∧
    validateLevel (.strLevel "info") 20 = ⟨.strLevel "info", 0⟩ ∧
    validateLevel (.strLevel "BOGUS") 20 = ⟨.intLevel 20, 1⟩ ∧
    validateLevel .otherObj 20 = ⟨.intLevel 20, 1⟩ := by
  decide

/-- C9: the claim states that in compact mode every rendered panel line
has width max(longest content line, title length, floor) + fixed padding.
The code refutes it: for a 20-character content line (no title) the
borders are 22 characters wide while the content row is 23 characters
wide, so the lines do not even share a common width (the computed
target_width, inner + 4 = 24, is never produced at all). -/
theorem ascii_panel_unequal_line_widths :
    (renderAsciiPanel (.text (strRep 20 'a')) none true).map String.length =
      [22, 23, 22] ∧
    ¬∃ w, ∀ l ∈ renderAsciiPanel (.text (strRep 20 'a')) none true, l.length = w := by
  have hm : (renderAsciiPanel (.text (strRep 20 'a')) none true).map String.length =
      [22, 23, 22] := by decide
  refine ⟨hm, ?_⟩
  rintro ⟨w, hw⟩
  have hall : ∀ n ∈ (renderAsciiPanel (.text (strRep 20 'a')) none true).map
      String.length, n = w := by
    intro n hn
    rcases List.mem_map.mp hn with ⟨l, hl, rfl⟩
    exact hw l hl
  rw [hm] at hall
  have h1 : (22 : Nat) = w := hall 22 (by simp)
  have h2 : (23 : Nat) = w := hall 23 (by simp)
  omega

/-- C10: calling exception() with exc_info=True while the interpreter
exception state is empty (sys.exc_info() yields the null triple) logs no
warning, emits the single record at ERROR (40) carrying the null triple
(no exception attached), sets the suppress_console extra key to False so
the suppression filter lets the record through, and performs no manual
Rich traceback print — for every combination of the class flags. -/
theorem exception_no_ambient_excinfo (flags : Flags) (msg : String)
    (extra : List (String × ExtraVal)) (showLocals : Option Bool) :
    (exceptionCall flags nullExcInfo (.boolArg true) msg extra showLocals).warnings = [] ∧
    (exceptionCall flags nullExcInfo (.boolArg true) msg extra showLocals).record.levelno = 40 ∧
    (exceptionCall flags nullExcInfo (.boolArg true) msg extra showLocals).record.excInfo =
      nullExcInfo ∧
    dictGet (exceptionCall flags nullExcInfo (.boolArg true) msg extra
      showLocals).record.extra "suppress_console" = some (.boolVal false) ∧
    suppressConsoleFilterAccepts
      (exceptionCall flags nullExcInfo (.boolArg true) msg extra showLocals).record = true ∧
    (exceptionCall flags nullExcInfo (.boolArg true) msg extra showLocals).manualRichPrint =
      false := by
  have hg : dictGet (exceptionCall flags nullExcInfo (.boolArg true) msg extra
      showLocals).record.extra "suppress_console" = some (.boolVal false) :=
    dictGet_dictSet extra "suppress_console" (.boolVal false)
  refine ⟨rfl, rfl, rfl, hg, ?_, rfl⟩
  unfold suppressConsoleFilterAccepts
  rw [hg]
  rfl

/-- C1: on every exception() call the suppress_console extra key carries
exactly (exception present) AND (Rich console on AND simple tracebacks
off); the manual Rich traceback print runs iff that same conjunction
holds; the filter installed on the console handler drops the emitted record
exactly when that value is true; hence with enhanced rendering and
enhanced tracebacks active exactly one traceback rendering reaches the
console (the manual one), and with simple tracebacks active exactly one
reaches it, by dispatch alone. -/
theorem exception_suppression_routing (flags : Flags) (ambient : ExcTriple)
    (arg : ExcInfoArg) (msg : String) (extra : List (String × ExtraVal))
    (showLocals : Option Bool) :
    dictGet (exceptionCall flags ambient arg msg extra showLocals).record.extra
        "suppress_console" =
      some (.boolVal
        ((exceptionCall flags ambient arg msg extra
            showLocals).record.excInfo.excType.isSome &&
          (flags.useRichConsole && !flags.useSimpleTracebacks))) ∧
    (exceptionCall flags ambient arg msg extra showLocals).manualRichPrint =
      ((exceptionCall flags ambient arg msg extra
          showLocals).record.excInfo.excType.isSome &&
        (flags.useRichConsole && !flags.useSimpleTracebacks)) ∧
    suppressConsoleFilterAccepts
        (exceptionCall flags ambient arg msg extra showLocals).record =
      !((exceptionCall flags ambient arg msg extra
          showLocals).record.excInfo.excType.isSome &&
        (flags.useRichConsole && !flags.useSimpleTracebacks)) ∧
    (flags.useRichConsole = true → flags.useSimpleTracebacks = false →
      (exceptionCall flags ambient arg msg extra
        showLocals).record.excInfo.excType.isSome = true →
      consoleTracebackRenderCount flags
          (exceptionCall flags ambient arg msg extra showLocals) = 1 ∧
        (exceptionCall flags ambient arg msg extra showLocals).manualRichPrint = true) ∧
    (flags.useSimpleTracebacks = true →
      (exceptionCall flags ambient arg msg extra
        showLocals).record.excInfo.excType.isSome = true →
      consoleTracebackRenderCount flags
          (exceptionCall flags ambient arg msg extra showLocals) = 1 ∧
        (exceptionCall flags ambient arg msg extra showLocals).manualRichPrint = false) := by
  have h1 : dictGet (exceptionCall flags ambient arg msg extra showLocals).record.extra
      "suppress_console" =
      some (.boolVal
        ((exceptionCall flags ambient arg msg extra
            showLocals).record.excInfo.excType.isSome &&
          (flags.useRichConsole && !flags.useSimpleTracebacks))) :=
    dictGet_dictSet extra "suppress_console" _
  have h3 : suppressConsoleFilterAccepts
      (exceptionCall flags ambient arg msg extra showLocals).record =
      !((exceptionCall flags ambient arg msg extra
          showLocals).record.excInfo.excType.isSome &&
        (flags.useRichConsole && !flags.useSimpleTracebacks)) := by
    unfold suppressConsoleFilterAccepts
    rw [h1]
    rfl
  refine ⟨h1, rfl, h3, ?_, ?_⟩
  · intro hU hS hE
    constructor
    · unfold consoleTracebackRenderCount consoleDispatchRendersTb
      rw [h3, hU, hS, hE]
      have hm : (exceptionCall flags ambient arg msg extra showLocals).manualRichPrint =
          ((exceptionCall flags ambient arg msg extra
              showLocals).record.excInfo.excType.isSome &&
            (flags.useRichConsole && !flags.useSimpleTracebacks)) := rfl
      rw [hm, hU, hS, hE]
      simp
    · have hm : (exceptionCall flags ambient arg msg extra showLocals).manualRichPrint =
          ((exceptionCall flags ambient arg msg extra
              showLocals).record.excInfo.excType.isSome &&
            (flags.useRichConsole && !flags.useSimpleTracebacks)) := rfl
      rw [hm, hU, hS, hE]
      rfl
  · intro hS hE
    have hm : (exceptionCall flags ambient arg msg extra showLocals).manualRichPrint =
        ((exceptionCall flags ambient arg msg extra
            showLocals).record.excInfo.excType.isSome &&
          (flags.useRichConsole && !flags.useSimpleTracebacks)) := rfl
    constructor
    · unfold consoleTracebackRenderCount consoleDispatchRendersTb
      rw [hS, hE, hm, hS]
      simp
    · rw [hm, hS]
      simp

/-- C1 witness: with Rich console on and simple tracebacks off a current
ValueError yields exactly one console traceback rendering, the manual one;
with simple tracebacks on it yields exactly one, by dispatch alone. -/
theorem exception_suppression_routing_witness :
    consoleTracebackRenderCount ⟨true, false, false⟩
        (exceptionCall ⟨true, false, false⟩ ⟨some "ValueError", some "boom", true⟩
          (.boolArg true) "failed" [] none) = 1 ∧
    (exceptionCall ⟨true, false, false⟩ ⟨some "ValueError", some "boom", true⟩
        (.boolArg true) "failed" [] none).manualRichPrint = true ∧
    consoleTracebackRenderCount ⟨true, true, false⟩
        (exceptionCall ⟨true, true, false⟩ ⟨some "ValueError", some "boom", true⟩
          (.boolArg true) "failed" [] none) = 1 ∧
    (exceptionCall ⟨true, true, false⟩ ⟨some "ValueError", some "boom", true⟩
        (.boolArg true) "failed" [] none).manualRichPrint = false := by
  have ha := (exception_suppression_routing ⟨true, false, false⟩
    ⟨some "ValueError", some "boom", true⟩ (.boolArg true) "failed" [] none).2.2.2.1
    rfl rfl rfl
  have hb := (exception_suppression_routing ⟨true, true, false⟩
    ⟨some "ValueError", some "boom", true⟩ (.boolArg true) "failed" [] none).2.2.2.2
    rfl rfl
  exact ⟨ha.1, ha.2, hb.1, hb.2⟩

/-- C4: whenever setup_logging returns normally, the returned pair is
mutually consistent — the enabled flag is true iff a path is present — and
with log_file_path explicitly disabled the pair is (False, None) whatever
the other fields and the environment do. -/
theorem setup_logging_return_consistent (cfg : Config) (env : Env) (s : LogState)
    (b : Bool) (p : Option PyPath)
    (h : (setupLogging cfg env s).1 = .ok (b, p)) :
    ((b = true) ↔ (p.isSome = true)) ∧
    (cfg.logFilePath = .disabled → b = false ∧ p = none) := by
  obtain ⟨hr, -, -, -, -⟩ := setupLogging_fst_ok cfg env s (b, p) h
  have hdis : cfg.logFilePath = .disabled → (resolveLogPath cfg env).1 = none := by
    intro hd
    simp [resolveLogPath, hd]
  unfold okResult at hr
  cases hp : (resolveLogPath cfg env).1 <;> cases hf : env.fileSinkRaises <;>
    rw [hp, hf] at hr <;> simp only [Prod.mk.injEq] at hr <;>
      obtain ⟨rfl, rfl⟩ := hr
  · simp
  · simp
  · refine ⟨by simp, fun hd => ?_⟩
    rw [hp] at hdis
    exact absurd (hdis hd) (by simp)
  · simp

/-- C5: with log_file_path unset and path resolution succeeding, the
resolved log file path is the stem from the resolver — fixed prefix plus
second-resolution timestamp in the chosen directory — with the extension
.jsonl appended when log_file_serialize is true and .log when false
(with_suffix appends because the stem contains no dot). -/
theorem auto_path_extension (cfg : Config) (env : Env) (base : PyPath)
    (hauto : cfg.logFilePath = .auto)
    (hbase : getDefaultLogFilePath env = .ok base)
    (hmk : env.autoMkdirOk = true) :
    base.name = kardomeLogStem ++ strftimeTimestamp env.now ∧
    (resolveLogPath cfg env).1 =
      some ⟨base.dir,
        (kardomeLogStem ++ strftimeTimestamp env.now) ++
          (if cfg.logFileSerialize then ".jsonl" else ".log")⟩ := by
  have hname : base.name = kardomeLogStem ++ strftimeTimestamp env.now := by
    unfold getDefaultLogFilePath at hbase
    rcases hpl : env.platformLogDir with e | d <;> rw [hpl] at hbase
    · rcases hcw : env.cwdLogDir with e2 | d2 <;> rw [hcw] at hbase
      · exact absurd hbase (by simp)
      · rw [← Except.ok.inj hbase]
    · rw [← Except.ok.inj hbase]
  refine ⟨hname, ?_⟩
  have hnd : '.' ∉ base.name.data := by
    rw [hname]
    exact logStem_no_dot env.now
  unfold resolveLogPath
  rw [hauto, hbase, hmk]
  simp only [if_true]
  rw [withSuffix_of_no_dot base hnd, hname]

/-- C5 witness: a concrete environment resolving to the platform log
directory at 2025-10-12 14:30:22 with serialize on yields the .jsonl
path. -/
theorem auto_path_extension_witness :
    (⟨"/var/log/app", "kardome_log_20251012_143022"⟩ : PyPath).name =
      kardomeLogStem ++ strftimeTimestamp ⟨2025, 10, 12, 14, 30, 22⟩ ∧
    (resolveLogPath
        ⟨"PythonApp", some "Kardome", 20, true, false, "[%X]", false, .auto, 10, none,
         "10 MB", "7 days", true⟩
        ⟨.ok "/var/log/app", .ok "./logs", ⟨2025, 10, 12, 14, 30, 22⟩, true, true, true,
         none, none, false, true, none, none⟩).1 =
      some ⟨"/var/log/app",
        (kardomeLogStem ++ strftimeTimestamp ⟨2025, 10, 12, 14, 30, 22⟩) ++ ".jsonl"⟩ :=
  auto_path_extension
    ⟨"PythonApp", some "Kardome", 20, true, false, "[%X]", false, .auto, 10, none,
     "10 MB", "7 days", true⟩
    ⟨.ok "/var/log/app", .ok "./logs", ⟨2025, 10, 12, 14, 30, 22⟩, true, true, true,
     none, none, false, true, none, none⟩
    ⟨"/var/log/app", "kardome_log_20251012_143022"⟩ rfl (by decide) rfl

/-- C4 witness: with file logging explicitly disabled and an otherwise
clean environment, setup_logging returns (False, None) and the relevant
consistency conclusions hold there. -/
theorem setup_logging_return_consistent_witness :
    ((false = true) ↔ ((none : Option PyPath).isSome = true)) ∧
    ((⟨"PythonApp", some "Kardome", 20, true, false, "[%X]", false, .disabled, 10, none,
        "10 MB", "7 days", true⟩ : Config).logFilePath = .disabled →
      false = false ∧ (none : Option PyPath) = none) :=
  setup_logging_return_consistent
    ⟨"PythonApp", some "Kardome", 20, true, false, "[%X]", false, .disabled, 10, none,
     "10 MB", "7 days", true⟩
    ⟨.ok "/var/log/app", .ok "./logs", ⟨2025, 10, 12, 14, 30, 22⟩, true, true, true,
     none, none, false, true, none, none⟩
    ⟨[], 30, [], false, false, true, false⟩ false none (by decide)

/-- C6: every exception escaping setup_logging is a LoggerSetupError: an
escaping exception always has the setup-error type; a LoggerSetupError
raised inside the body propagates unchanged; and when none of the
fatally-wired steps raises, setup_logging returns normally — whatever the
degradable steps (traceback hook, path resolution, console sink, file
sink) did, so self-healing and degrading failures never surface. -/
theorem setup_logging_error_type (cfg : Config) (env : Env) (s : LogState) :
    (∀ e, (setupLogging cfg env s).1 = .error e → e.isSetupError = true) ∧
    (∀ e s2, setupBody cfg env s = (.error e, s2) → e.isSetupError = true →
      (setupLogging cfg env s).1 = .error e) ∧
    (env.configureRootRaises = none → env.rootLoggerIsNone = false →
      env.summaryRaises = none →
      (setupLogging cfg env s).1 = .ok (okResult cfg env)) := by
  refine ⟨?_, ?_, ?_⟩
  · intro e he
    unfold setupLogging at he
    cases hb : setupBody cfg env s with
    | mk res st =>
        rw [hb] at he
        cases res with
        | ok v => simp at he
        | error e2 =>
            by_cases h2 : e2.isSetupError
            · simp only [h2, if_true] at he
              rw [← Except.error.inj he]
              exact h2
            · simp only [h2, Bool.false_eq_true, if_false] at he
              rw [← Except.error.inj he]
              rfl
  · intro e s2 hb hset
    unfold setupLogging
    rw [hb]
    simp [hset]
  · intro h1 h2 h3
    unfold setupLogging
    rw [setupBody_clean cfg env s h1 h2 h3]

/-- C6 witness: a clean environment returns normally, and an unexpected
RuntimeError raised while configuring the root logger escapes wrapped as a
LoggerSetupError. -/
theorem setup_logging_error_type_witness :
    (setupLogging
        ⟨"PythonApp", some "Kardome", 20, true, false, "[%X]", false, .auto, 10, none,
         "10 MB", "7 days", true⟩
        ⟨.ok "/var/log/app", .ok "./logs", ⟨2025, 10, 12, 14, 30, 22⟩, true, true, true,
         none, none, false, true, none, none⟩
        ⟨[], 30, [], false, false, true, false⟩).1 =
      .ok (okResult
        ⟨"PythonApp", some "Kardome", 20, true, false, "[%X]", false, .auto, 10, none,
         "10 MB", "7 days", true⟩
        ⟨.ok "/var/log/app", .ok "./logs", ⟨2025, 10, 12, 14, 30, 22⟩, true, true, true,
         none, none, false, true, none, none⟩) ∧
    PyExc.isSetupError (.setupError "UNEXPECTED CRITICAL LOGGER SETUP ERROR") = true := by
  constructor
  · exact (setup_logging_error_type
      ⟨"PythonApp", some "Kardome", 20, true, false, "[%X]", false, .auto, 10, none,
       "10 MB", "7 days", true⟩
      ⟨.ok "/var/log/app", .ok "./logs", ⟨2025, 10, 12, 14, 30, 22⟩, true, true, true,
       none, none, false, true, none, none⟩
      ⟨[], 30, [], false, false, true, false⟩).2.2 rfl rfl rfl
  · exact (setup_logging_error_type
      ⟨"PythonApp", some "Kardome", 20, true, false, "[%X]", false, .auto, 10, none,
       "10 MB", "7 days", true⟩
      ⟨.ok "/var/log/app", .ok "./logs", ⟨2025, 10, 12, 14, 30, 22⟩, true, true, true,
       none, some (.otherError "boom"), false, true, none, none⟩
      ⟨[], 30, [], false, false, true, false⟩).1
      (.setupError "UNEXPECTED CRITICAL LOGGER SETUP ERROR") (by decide)

/-- C7: a second setup_logging call that returns normally leaves exactly
the wiring a single call with its configuration would have left — the
final state is independent of the state the first call produced — and that
final state has at most one console handler and at most one file sink. -/
theorem setup_logging_idempotent_replacement (cfg1 : Config) (env1 : Env)
    (cfg2 : Config) (env2 : Env) (s : LogState) (r : Bool × Option PyPath)
    (h : (setupLogging cfg2 env2 ((setupLogging cfg1 env1 s).2)).1 = .ok r) :
    (setupLogging cfg2 env2 ((setupLogging cfg1 env1 s).2)).2 =
      (setupLogging cfg2 env2 s).2 ∧
    consoleHandlerCount ((setupLogging cfg2 env2 ((setupLogging cfg1 env1 s).2)).2) ≤ 1 ∧
    fileSinkCount ((setupLogging cfg2 env2 ((setupLogging cfg1 env1 s).2)).2) ≤ 1 := by
  obtain ⟨-, hst, hc1, hc2, hc3⟩ := setupLogging_fst_ok cfg2 env2 _ r h
  have hs2 : (setupLogging cfg2 env2 s).2 = okState cfg2 env2 := by
    unfold setupLogging
    rw [setupBody_clean cfg2 env2 s hc1 hc2 hc3]
  refine ⟨hst.trans hs2.symm, ?_, ?_⟩
  · rw [hst]
    unfold okState consoleHandlerCount
    cases hrich : cfg2.useRichConsole <;> cases hk : env2.consoleSinkAddOk <;>
      cases hp : (resolveLogPath cfg2 env2).1 <;> cases hf : env2.fileSinkRaises <;>
        simp [hrich, hk, hp, hf, richConsoleHandler, loguruFileSink, List.filter]
  · rw [hst]
    unfold okState fileSinkCount
    cases hrich : cfg2.useRichConsole <;> cases hk : env2.consoleSinkAddOk <;>
      cases hp : (resolveLogPath cfg2 env2).1 <;> cases hf : env2.fileSinkRaises <;>
        simp [hrich, hk, hp, hf, richConsoleHandler, loguruFileSink, List.filter]

/-- C7 witness: a first rich-console setup followed by a plain-console
setup leaves exactly the state of the plain setup alone, with one console
handler and one file sink. -/
theorem setup_logging_idempotent_replacement_witness :
    (setupLogging
        ⟨"PythonApp", some "Kardome", 30, false, true, "[%X]", false, .auto, 10, none,
         "10 MB", "7 days", false⟩
        ⟨.ok "/var/log/app", .ok "./logs", ⟨2025, 10, 12, 14, 30, 22⟩, true, true, true,
         none, none, false, true, none, none⟩
        ((setupLogging
          ⟨"PythonApp", some "Kardome", 20, true, false, "[%X]", false, .auto, 10, none,
           "10 MB", "7 days", true⟩
          ⟨.ok "/var/log/app", .ok "./logs", ⟨2025, 10, 12, 14, 30, 22⟩, true, true, true,
           none, none, false, true, none, none⟩
          ⟨[], 30, [], false, false, true, false⟩).2)).2 =
      (setupLogging
        ⟨"PythonApp", some "Kardome", 30, false, true, "[%X]", false, .auto, 10, none,
         "10 MB", "7 days", false⟩
        ⟨.ok "/var/log/app", .ok "./logs", ⟨2025, 10, 12, 14, 30, 22⟩, true, true, true,
         none, none, false, true, none, none⟩
        ⟨[], 30, [], false, false, true, false⟩).2 ∧
    consoleHandlerCount ((setupLogging
        ⟨"PythonApp", some "Kardome", 30, false, true, "[%X]", false, .auto, 10, none,
         "10 MB", "7 days", false⟩
        ⟨.ok "/var/log/app", .ok "./logs", ⟨2025, 10, 12, 14, 30, 22⟩, true, true, true,
         none, none, false, true, none, none⟩
        ((setupLogging
          ⟨"PythonApp", some "Kardome", 20, true, false, "[%X]", false, .auto, 10, none,
           "10 MB", "7 days", true⟩
          ⟨.ok "/var/log/app", .ok "./logs", ⟨2025, 10, 12, 14, 30, 22⟩, true, true, true,
           none, none, false, true, none, none⟩
          ⟨[], 30, [], false, false, true, false⟩).2)).2) ≤ 1 ∧
    fileSinkCount ((setupLogging
        ⟨"PythonApp", some "Kardome", 30, false, true, "[%X]", false, .auto, 10, none,
         "10 MB", "7 days", false⟩
        ⟨.ok "/var/log/app", .ok "./logs", ⟨2025, 10, 12, 14, 30, 22⟩, true, true, true,
         none, none, false, true, none, none⟩
        ((setupLogging
          ⟨"PythonApp", some "Kardome", 20, true, false, "[%X]", false, .auto, 10, none,
           "10 MB", "7 days", true⟩
          ⟨.ok "/var/log/app", .ok "./logs", ⟨2025, 10, 12, 14, 30, 22⟩, true, true, true,
           none, none, false, true, none, none⟩
          ⟨[], 30, [], false, false, true, false⟩).2)).2) ≤ 1 :=
  setup_logging_idempotent_replacement
    ⟨"PythonApp", some "Kardome", 20, true, false, "[%X]", false, .auto, 10, none,
     "10 MB", "7 days", true⟩
    ⟨.ok "/var/log/app", .ok "./logs", ⟨2025, 10, 12, 14, 30, 22⟩, true, true, true,
     none, none, false, true, none, none⟩
    ⟨"PythonApp", some "Kardome", 30, false, true, "[%X]", false, .auto, 10, none,
     "10 MB", "7 days", false⟩
    ⟨.ok "/var/log/app", .ok "./logs", ⟨2025, 10, 12, 14, 30, 22⟩, true, true, true,
     none, none, false, true, none, none⟩
    ⟨[], 30, [], false, false, true, false⟩
    (true, some ⟨"/var/log/app", "kardome_log_20251012_143022.log"⟩) (by decide)

/-- C8 counterexample: the claim states the root level equals the console
level alone whenever file logging is not enabled, including when the file
sink ends up disabled. With console=20, file=10, a successfully resolved
auto path and a failing Loguru file sink, setup_logging returns
(False, None) — file logging not enabled — yet the root level is 10, the
min with the file level, not the console level 20. -/
theorem root_level_counterexample :
    (setupLogging
        ⟨"PythonApp", some "Kardome", 20, true, false, "[%X]", false, .auto, 10, none,
         "10 MB", "7 days", true⟩
        ⟨.ok "/var/log/app", .ok "./logs", ⟨2025, 10, 12, 14, 30, 22⟩, true, true, true,
         none, none, false, true, some (.otherError "disk full"), none⟩
        ⟨[], 30, [], false, false, true, false⟩).1 = .ok (false, none) ∧
    ((setupLogging
        ⟨"PythonApp", some "Kardome", 20, true, false, "[%X]", false, .auto, 10, none,
         "10 MB", "7 days", true⟩
        ⟨.ok "/var/log/app", .ok "./logs", ⟨2025, 10, 12, 14, 30, 22⟩, true, true, true,
         none, none, false, true, some (.otherError "disk full"), none⟩
        ⟨[], 30, [], false, false, true, false⟩).2).rootLevel = 10 ∧
    ¬((setupLogging
        ⟨"PythonApp", some "Kardome", 20, true, false, "[%X]", false, .auto, 10, none,
         "10 MB", "7 days", true⟩
        ⟨.ok "/var/log/app", .ok "./logs", ⟨2025, 10, 12, 14, 30, 22⟩, true, true, true,
         none, none, false, true, some (.otherError "disk full"), none⟩
        ⟨[], 30, [], false, false, true, false⟩).2).rootLevel = 20 := by
  refine ⟨by decide, by decide, by decide⟩

/-- C8 (amended): the root level set by a normally-returning setup_logging
equals min(console level, file level) exactly when a log file path was
resolved — even if the file sink later fails and file logging is reported
disabled — and equals the console level alone when no path was resolved. -/
theorem root_level_min_of_resolved_path (cfg : Config) (env : Env) (s : LogState)
    (r : Bool × Option PyPath) (h : (setupLogging cfg env s).1 = .ok r) :
    ((setupLogging cfg env s).2).rootLevel =
      if (resolveLogPath cfg env).1.isSome then min cfg.consoleLevel cfg.fileLevel
      else cfg.consoleLevel := by
  obtain ⟨-, hst, -, -, -⟩ := setupLogging_fst_ok cfg env s r h
  rw [hst]
  rfl

/-- C8 witness: in the counterexample environment the root level is
min(20, 10) = 10 because the path was resolved, though the sink failed. -/
theorem root_level_min_of_resolved_path_witness :
    ((setupLogging
        ⟨"PythonApp", some "Kardome", 20, true, false, "[%X]", false, .auto, 10, none,
         "10 MB", "7 days", true⟩
        ⟨.ok "/var/log/app", .ok "./logs", ⟨2025, 10, 12, 14, 30, 22⟩, true, true, true,
         none, none, false, true, some (.otherError "disk full"), none⟩
        ⟨[], 30, [], false, false, true, false⟩).2).rootLevel =
      if (resolveLogPath
          ⟨"PythonApp", some "Kardome", 20, true, false, "[%X]", false, .auto, 10, none,
           "10 MB", "7 days", true⟩
          ⟨.ok "/var/log/app", .ok "./logs", ⟨2025, 10, 12, 14, 30, 22⟩, true, true, true,
           none, none, false, true, some (.otherError "disk full"), none⟩).1.isSome
      then min (20 : Int) 10 else 20 :=
  root_level_min_of_resolved_path
    ⟨"PythonApp", some "Kardome", 20, true, false, "[%X]", false, .auto, 10, none,
     "10 MB", "7 days", true⟩
    ⟨.ok "/var/log/app", .ok "./logs", ⟨2025, 10, 12, 14, 30, 22⟩, true, true, true,
     none, none, false, true, some (.otherError "disk full"), none⟩
    ⟨[], 30, [], false, false, true, false⟩ (false, none) (by decide)

end StandardLogger
